import Mathlib

/-!
# Fuel savings calculator (`src/businessLogic/fuelSavingsCalculator.js`)

A shallow embedding of the three static methods of `FuelSavingsCalculator`
and of the fragment of JavaScript they run on.

## Modelling choices

* A JavaScript value is one of the primitives `undefined`, `null`, a boolean,
  a number or a string (`JSVal`).  Objects, symbols and bigints are outside
  the model.
* A JavaScript number (`Num`) is a rational, or one of `-0`, `+Infinity`,
  `-Infinity`, `NaN`.  The arithmetic operators follow IEEE 754 on the special
  values and on the sign of zero, and are exact on finite values: the rounding
  of binary64 results, overflow and underflow are not modelled.
* A method returns `Except JSVal JSVal`: `.error v` is `throw v`.
* `StringToNumber` and `Number::toString` are algorithms of the language
  runtime, and `MathService.roundNumber` lives in the module `./math`; all
  three are fields of a `Host` the methods are parameterised by.
-/

namespace FuelSavings

/-! ## Numbers -/

/-- A JavaScript number: `fin q` is the finite value `q` (`fin 0` is `+0`). -/
inductive Num where
  | fin (q : ℚ)
  | negZero
  | posInf
  | negInf
  | nan
  deriving DecidableEq

namespace Num

def isNaN : Num → Bool
  | nan => true
  | _ => false

def isInf : Num → Bool
  | posInf => true
  | negInf => true
  | _ => false

def isZero : Num → Bool
  | fin q => decide (q = 0)
  | negZero => true
  | _ => false

/-- The sign bit of a number that is not `NaN`. -/
def signBit : Num → Bool
  | fin q => decide (q < 0)
  | negZero => true
  | negInf => true
  | _ => false

/-- The value of a finite number (both zeros are `0`). -/
def toRat : Num → ℚ
  | fin q => q
  | _ => 0

def zero (sign : Bool) : Num := if sign then negZero else fin 0

def inf (sign : Bool) : Num := if sign then negInf else posInf

/-- The finite number of value `q`; when `q = 0` the zero of sign `sign`. -/
def ofRat (sign : Bool) (q : ℚ) : Num := if q = 0 then zero sign else fin q

/-- JavaScript `a * b` on numbers. -/
def mul (a b : Num) : Num :=
  if a.isNaN || b.isNaN then nan
  else if a.isInf || b.isInf then
    if a.isZero || b.isZero then nan else inf (xor a.signBit b.signBit)
  else ofRat (xor a.signBit b.signBit) (a.toRat * b.toRat)

/-- JavaScript `a / b` on numbers. -/
def div (a b : Num) : Num :=
  if a.isNaN || b.isNaN then nan
  else if a.isInf then
    if b.isInf then nan else inf (xor a.signBit b.signBit)
  else if b.isInf then zero (xor a.signBit b.signBit)
  else if b.isZero then
    if a.isZero then nan else inf (xor a.signBit b.signBit)
  else ofRat (xor a.signBit b.signBit) (a.toRat / b.toRat)

/-- JavaScript unary `-a`. -/
def neg : Num → Num
  | fin q => if q = 0 then negZero else fin (-q)
  | negZero => fin 0
  | posInf => negInf
  | negInf => posInf
  | nan => nan

/-- JavaScript `a + b` on numbers. -/
def add (a b : Num) : Num :=
  if a.isNaN || b.isNaN then nan
  else if a.isInf then
    if b.isInf && (a.signBit != b.signBit) then nan else a
  else if b.isInf then b
  else ofRat (a.signBit && b.signBit) (a.toRat + b.toRat)

/-- JavaScript `a - b` on numbers. -/
def sub (a b : Num) : Num := add a (neg b)

end Num

/-! ## Values -/

/-- A JavaScript primitive value. -/
inductive JSVal where
  | undefined
  | null
  | bool (b : Bool)
  | num (n : Num)
  | str (s : String)
  deriving DecidableEq

/-- What the methods take from outside `fuelSavingsCalculator.js`. -/
structure Host where
  /-- ECMAScript `StringToNumber`. -/
  stringToNumber : String → Num
  /-- ECMAScript `Number::toString` (radix 10). -/
  numberToString : Num → String
  /-- `MathService.roundNumber` of `./math`: a returned or thrown value. -/
  roundNumber : JSVal → JSVal → Except JSVal JSVal

/-- ECMAScript `ToBoolean`: the truthiness tested by `!v` and `if (v)`. -/
def truthy : JSVal → Bool
  | .undefined => false
  | .null => false
  | .bool b => b
  | .num n => !(n.isZero || n.isNaN)
  | .str s => decide (s ≠ "")

/-- ECMAScript `ToNumber` on primitives. -/
def toNumber (h : Host) : JSVal → Num
  | .undefined => .nan
  | .null => .fin 0
  | .bool true => .fin 1
  | .bool false => .fin 0
  | .num n => n
  | .str s => h.stringToNumber s

/-- ECMAScript `ToString` on primitives. -/
def toStr (h : Host) : JSVal → String
  | .undefined => "undefined"
  | .null => "null"
  | .bool true => "true"
  | .bool false => "false"
  | .num n => h.numberToString n
  | .str s => s

/-- JavaScript `a * b`. -/
def jsMul (h : Host) (a b : JSVal) : JSVal := .num (Num.mul (toNumber h a) (toNumber h b))

/-- JavaScript `a / b`. -/
def jsDiv (h : Host) (a b : JSVal) : JSVal := .num (Num.div (toNumber h a) (toNumber h b))

/-- JavaScript `a - b`. -/
def jsSub (h : Host) (a b : JSVal) : JSVal := .num (Num.sub (toNumber h a) (toNumber h b))

/-- JavaScript `a + b`: concatenation when either operand is a string. -/
def jsAdd (h : Host) (a b : JSVal) : JSVal :=
  match a, b with
  | .str s, _ => .str (s ++ toStr h b)
  | _, .str s => .str (toStr h a ++ s)
  | _, _ => .num (Num.add (toNumber h a) (toNumber h b))

/-! ## The calculator -/

/-- The `config` object read by `calculateSavingsPerMonth`; a property that is
absent reads as `undefined`. -/
structure Config where
  milesDriven : JSVal
  milesDrivenTimeframe : JSVal
  tradePpg : JSVal
  tradeMpg : JSVal
  newPpg : JSVal
  newMpg : JSVal

/-- The text the `default` branch of the `switch` puts before the timeframe. -/
def unknownTimeframeText : String := "Unknown milesDrivenTimeframe passed: "

/-- `FuelSavingsCalculator.calculateMilesDrivenPerMonth`: the `switch` compares
`milesDrivenTimeframe` with each label by `===`. -/
def calculateMilesDrivenPerMonth (h : Host) (milesDriven milesDrivenTimeframe : JSVal) :
    Except JSVal JSVal :=
  if milesDrivenTimeframe = .str "week" then
    .ok (jsDiv h (jsMul h milesDriven (.num (.fin 52))) (.num (.fin 12)))
  else if milesDrivenTimeframe = .str "month" then
    .ok milesDriven
  else if milesDrivenTimeframe = .str "year" then
    .ok (jsDiv h milesDriven (.num (.fin 12)))
  else
    .error (jsAdd h (.str unknownTimeframeText) milesDrivenTimeframe)

/-- `FuelSavingsCalculator.calculateMonthlyCost`. -/
def calculateMonthlyCost (h : Host) (milesDrivenPerMonth ppg mpg : JSVal) :
    Except JSVal JSVal :=
  let gallonsUsedPerMonth := jsDiv h milesDrivenPerMonth mpg
  .ok (jsMul h gallonsUsedPerMonth ppg)

/-- `FuelSavingsCalculator.calculateSavingsPerMonth`. -/
def calculateSavingsPerMonth (h : Host) (config : Config) : Except JSVal JSVal :=
  if !(truthy config.milesDriven) then
    .ok (.num (.fin 0))
  else do
    let milesDrivenPerMonth ←
      calculateMilesDrivenPerMonth h config.milesDriven config.milesDrivenTimeframe
    let tradeFuelCostPerMonth ←
      calculateMonthlyCost h milesDrivenPerMonth config.tradePpg config.tradeMpg
    let newFuelCostPerMonth ←
      calculateMonthlyCost h milesDrivenPerMonth config.newPpg config.newMpg
    let savingsPerMonth := jsSub h tradeFuelCostPerMonth newFuelCostPerMonth
    h.roundNumber savingsPerMonth (.num (.fin 2))

/-- The timeframes the `switch` has a `case` for. -/
def validTimeframe (t : JSVal) : Prop :=
  t = .str "week" ∨ t = .str "month" ∨ t = .str "year"

instance (t : JSVal) : Decidable (validTimeframe t) := by
  unfold validTimeframe; infer_instance

/-- Modelled from the spec: `MathService.roundNumber`, whose module `./math` is
not among the sources.  Rounds a finite value half away from zero to
`decimalPlaces` decimal digits and signals `InvalidNumber` otherwise. -/
def roundNumberSpec (value decimalPlaces : JSVal) : Except JSVal JSVal :=
  match value, decimalPlaces with
  | .num (.fin q), .num (.fin d) =>
    let scale : ℚ := 10 ^ d.floor.toNat
    if 0 ≤ q then .ok (.num (.fin (⌊q * scale + 1 / 2⌋ / scale)))
    else .ok (.num (Num.ofRat true (-(⌊-q * scale + 1 / 2⌋ / scale))))
  | .num .negZero, .num (.fin _) => .ok (.num .negZero)
  | _, _ => .error (.str "InvalidNumber")

/-- A host for running the methods on concrete inputs.  Its rounding is
`roundNumberSpec`.  Its conversions read the empty string and render the zeros
and the three special numbers; any other argument gets a placeholder, and none
occurs in the examples below, whose numeric fields are numbers and whose
timeframes are strings. -/
def exampleHost : Host where
  stringToNumber := fun s => if s = "" then .fin 0 else .nan
  numberToString := fun n =>
    match n with
    | .posInf => "Infinity"
    | .negInf => "-Infinity"
    | .nan => "NaN"
    | _ => "0"
  roundNumber := roundNumberSpec

/-- 1200 miles a month at 3.50 a gallon, trading 20 for 30 miles a gallon. -/
def exampleConfig : Config where
  milesDriven := .num (.fin 1200)
  milesDrivenTimeframe := .str "month"
  tradePpg := .num (.fin 3.5)
  tradeMpg := .num (.fin 20)
  newPpg := .num (.fin 3.5)
  newMpg := .num (.fin 30)

end FuelSavings

namespace FuelSavings

/-! ## Evaluation lemmas -/

theorem truthy_eq_false_iff (v : JSVal) :
    truthy v = false ↔
      v = .undefined ∨ v = .null ∨ v = .bool false ∨ v = .num (.fin 0) ∨
        v = .num .negZero ∨ v = .num .nan ∨ v = .str "" := by
  cases v with
  | undefined => simp [truthy]
  | null => simp [truthy]
  | bool b => cases b <;> simp [truthy]
  | num n => cases n <;> simp [truthy, Num.isZero, Num.isNaN]
  | str s => simp [truthy]

theorem calculateMilesDrivenPerMonth_ok (h : Host) (milesDriven t : JSVal)
    (ht : validTimeframe t) :
    ∃ m, calculateMilesDrivenPerMonth h milesDriven t = .ok m := by
  rcases ht with rfl | rfl | rfl <;> simp [calculateMilesDrivenPerMonth]

theorem calculateMilesDrivenPerMonth_error (h : Host) (milesDriven t : JSVal)
    (ht : ¬ validTimeframe t) :
    calculateMilesDrivenPerMonth h milesDriven t =
      .error (.str (unknownTimeframeText ++ toStr h t)) := by
  simp only [validTimeframe, not_or] at ht
  simp [calculateMilesDrivenPerMonth, ht.1, ht.2.1, ht.2.2, jsAdd]

/-! ## Arithmetic on finite numbers -/

/-- C1: when `config.milesDriven` is falsy (absent or `undefined`, `null`,
`false`, `0`, `-0`, `NaN` or the empty string), `calculateSavingsPerMonth`
returns the number `0` and throws nothing, whatever the other five fields
hold. -/
theorem calculateSavingsPerMonth_falsy (h : Host) (config : Config)
    (hf : truthy config.milesDriven = false) :
    calculateSavingsPerMonth h config = .ok (.num (.fin 0)) := by
  simp [calculateSavingsPerMonth, hf]

/-- C1 at a config without `milesDriven`, with the timeframe `'decade'` and
both economies `0`. -/
theorem calculateSavingsPerMonth_falsy_witness :
    truthy (JSVal.undefined) = false ∧
      calculateSavingsPerMonth exampleHost
        { milesDriven := .undefined, milesDrivenTimeframe := .str "decade",
          tradePpg := .num (.fin 4), tradeMpg := .num (.fin 0),
          newPpg := .undefined, newMpg := .num (.fin 0) } = .ok (.num (.fin 0)) :=
  ⟨rfl, calculateSavingsPerMonth_falsy exampleHost _ rfl⟩

/-- C2: when `config.milesDriven` is truthy and the timeframe is `'week'`,
`'month'` or `'year'`, the three inner calls return values `m`, `tradeCost`
and `newCost`, and `calculateSavingsPerMonth` gives back what
`roundNumber(tradeCost - newCost, 2)` gives back: trade cost minus new cost,
rounded at 2 decimal places. -/
theorem calculateSavingsPerMonth_eq_roundNumber (h : Host) (config : Config)
    (ht : truthy config.milesDriven = true)
    (htf : validTimeframe config.milesDrivenTimeframe) :
    ∃ m tradeCost newCost,
      calculateMilesDrivenPerMonth h config.milesDriven config.milesDrivenTimeframe = .ok m ∧
      calculateMonthlyCost h m config.tradePpg config.tradeMpg = .ok tradeCost ∧
      calculateMonthlyCost h m config.newPpg config.newMpg = .ok newCost ∧
      calculateSavingsPerMonth h config =
        h.roundNumber (jsSub h tradeCost newCost) (.num (.fin 2)) := by
  obtain ⟨m, hm⟩ := calculateMilesDrivenPerMonth_ok h config.milesDriven _ htf
  refine ⟨m, _, _, hm, rfl, rfl, ?_⟩
  simp [calculateSavingsPerMonth, ht, hm, calculateMonthlyCost, bind, Except.bind]

/-- C2 at `exampleConfig`. -/
theorem calculateSavingsPerMonth_eq_roundNumber_witness :
    (truthy exampleConfig.milesDriven = true ∧
        validTimeframe exampleConfig.milesDrivenTimeframe) ∧
      ∃ m tradeCost newCost,
        calculateMilesDrivenPerMonth exampleHost exampleConfig.milesDriven
          exampleConfig.milesDrivenTimeframe = .ok m ∧
        calculateMonthlyCost exampleHost m exampleConfig.tradePpg exampleConfig.tradeMpg =
          .ok tradeCost ∧
        calculateMonthlyCost exampleHost m exampleConfig.newPpg exampleConfig.newMpg =
          .ok newCost ∧
        calculateSavingsPerMonth exampleHost exampleConfig =
          exampleHost.roundNumber (jsSub exampleHost tradeCost newCost) (.num (.fin 2)) :=
  ⟨⟨by simp [truthy, exampleConfig, Num.isZero, Num.isNaN], Or.inr (Or.inl rfl)⟩,
    calculateSavingsPerMonth_eq_roundNumber exampleHost exampleConfig
      (by simp [truthy, exampleConfig, Num.isZero, Num.isNaN]) (Or.inr (Or.inl rfl))⟩

/-- C5: `calculateMilesDrivenPerMonth(x, t)` throws exactly when `t` is none
of `'week'`, `'month'`, `'year'` (so no other timeframe is converted by
default), and what it throws is the string
`'Unknown milesDrivenTimeframe passed: ' + t`, which for a string `t` ends in
`t` itself. -/
theorem calculateMilesDrivenPerMonth_throws_iff (h : Host) (x t : JSVal) (s : String) :
    ((∃ e, calculateMilesDrivenPerMonth h x t = .error e) ↔ ¬ validTimeframe t) ∧
      (∀ e, calculateMilesDrivenPerMonth h x t = .error e →
        e = .str (unknownTimeframeText ++ toStr h t)) ∧
      (¬ validTimeframe (.str s) →
        calculateMilesDrivenPerMonth h x (.str s) =
          .error (.str ("Unknown milesDrivenTimeframe passed: " ++ s))) := by
  refine ⟨⟨?_, ?_⟩, ?_, ?_⟩
  · rintro ⟨e, he⟩ hv
    obtain ⟨m, hm⟩ := calculateMilesDrivenPerMonth_ok h x t hv
    rw [hm] at he
    cases he
  · intro hv
    exact ⟨_, calculateMilesDrivenPerMonth_error h x t hv⟩
  · intro e he
    by_cases hv : validTimeframe t
    · obtain ⟨m, hm⟩ := calculateMilesDrivenPerMonth_ok h x t hv
      rw [hm] at he
      cases he
    · rw [calculateMilesDrivenPerMonth_error h x t hv] at he
      cases he
      rfl
  · intro hv
    rw [calculateMilesDrivenPerMonth_error h x _ hv]
    rfl

/-- C7: when `config.milesDriven` is truthy and the timeframe is none of
`'week'`, `'month'`, `'year'`, `calculateSavingsPerMonth` ends with the throw of
`calculateMilesDrivenPerMonth`, the string
`'Unknown milesDrivenTimeframe passed: ' + milesDrivenTimeframe`, and returns
nothing, whatever the price and economy fields hold. -/
theorem calculateSavingsPerMonth_invalid_timeframe (h : Host) (config : Config)
    (ht : truthy config.milesDriven = true)
    (htf : ¬ validTimeframe config.milesDrivenTimeframe) :
    calculateSavingsPerMonth h config =
        calculateMilesDrivenPerMonth h config.milesDriven config.milesDrivenTimeframe ∧
      calculateSavingsPerMonth h config =
        .error (.str (unknownTimeframeText ++ toStr h config.milesDrivenTimeframe)) ∧
      ¬ ∃ v, calculateSavingsPerMonth h config = .ok v := by
  have herr := calculateMilesDrivenPerMonth_error h config.milesDriven _ htf
  have hs : calculateSavingsPerMonth h config =
      .error (.str (unknownTimeframeText ++ toStr h config.milesDrivenTimeframe)) := by
    simp [calculateSavingsPerMonth, ht, herr, bind, Except.bind]
  refine ⟨by rw [hs, herr], hs, ?_⟩
  rintro ⟨v, hv⟩
  rw [hs] at hv
  cases hv

/-- C7 at 300 miles per `'decade'`. -/
theorem calculateSavingsPerMonth_invalid_timeframe_witness :
    truthy (.num (.fin 300)) = true ∧ ¬ validTimeframe (.str "decade") ∧
      calculateSavingsPerMonth exampleHost
        { milesDriven := .num (.fin 300), milesDrivenTimeframe := .str "decade",
          tradePpg := .num (.fin 4), tradeMpg := .num (.fin 25),
          newPpg := .num (.fin 3.8), newMpg := .num (.fin 40) } =
        .error (.str "Unknown milesDrivenTimeframe passed: decade") :=
  ⟨by simp [truthy, Num.isZero, Num.isNaN], by decide,
    (calculateSavingsPerMonth_invalid_timeframe exampleHost
      { milesDriven := .num (.fin 300), milesDrivenTimeframe := .str "decade",
        tradePpg := .num (.fin 4), tradeMpg := .num (.fin 25),
        newPpg := .num (.fin 3.8), newMpg := .num (.fin 40) }
      (by simp [truthy, Num.isZero, Num.isNaN]) (by decide)).2.1⟩

end FuelSavings
